import Mathlib

/-!
Verification of the hurricane flow field generator
(`src/projects/hurricane_flow_field.py`).

The Python module defines a class `HurricaneFlowField` holding the canvas
size, hurricane eye center, maximum wind speed and eye radius, together with

* `velocity_field(x, y)`  — Rankine-vortex velocity at a point,
* `generate_grid(spacing)` — the integer sampling grid,
* `arrow_path(x, y, vx, vy, scale, arrow_length)` — the arrow glyph for one
  velocity sample (an empty string when the flow is too slow),
* `generate_svg(spacing, arrow_scale, ...)` — the full document.

Python floats are modelled as real numbers; the integer grid is modelled
over `ℕ` (Python `range` with a positive step).  The empty-string arrow
sentinel is modelled as `Option ArrowGlyph` (`none` = no glyph), and the
SVG string is modelled as a `FlowDocument` record carrying the static
elements and the ordered arrow list.
-/

namespace HurricaneFlow

/-- Configuration of the flow field: constructor state of the Python class
`HurricaneFlowField` (`width`, `height`, `center_x`, `center_y`,
`max_wind_speed`, `eye_radius`). -/
structure HurricaneFlowField where
  width : ℕ
  height : ℕ
  center_x : ℝ
  center_y : ℝ
  max_wind_speed : ℝ
  eye_radius : ℝ

/-- `HurricaneFlowField.velocity_field`: Rankine vortex with a spiral
perturbation, transcribed line by line from the Python source. -/
noncomputable def velocity_field (c : HurricaneFlowField) (x y : ℝ) : ℝ × ℝ :=
  let dx := x - c.center_x
  let dy := y - c.center_y
  let r := Real.sqrt (dx * dx + dy * dy)
  if r < 0.1 then (0.0, 0.0)
  else
    let omega := if r < c.eye_radius then c.max_wind_speed / c.eye_radius
      else (c.max_wind_speed * c.eye_radius) / (r * r)
    let vx := -omega * dy / r
    let vy := omega * dx / r
    let radial_factor := 0.1 * (1.0 - c.eye_radius / max r c.eye_radius)
    (vx + radial_factor * (-dx / r) * c.max_wind_speed * 0.1,
     vy + radial_factor * (-dy / r) * c.max_wind_speed * 0.1)

/-- Euclidean magnitude of a velocity sample, as computed in the source
(`math.sqrt(vx*vx + vy*vy)`). -/
noncomputable def magnitude (v : ℝ × ℝ) : ℝ :=
  Real.sqrt (v.1 * v.1 + v.2 * v.2)

/-- The solid-body branch formula of `velocity_field`: same computation, but
with `omega` fixed to the `r < eye_radius` branch (`max_wind_speed /
eye_radius`), spiral perturbation included.  Used to compare the two branch
formulas at the eye boundary. -/
noncomputable def solid_branch_velocity (c : HurricaneFlowField) (x y : ℝ) : ℝ × ℝ :=
  let dx := x - c.center_x
  let dy := y - c.center_y
  let r := Real.sqrt (dx * dx + dy * dy)
  let omega := c.max_wind_speed / c.eye_radius
  let vx := -omega * dy / r
  let vy := omega * dx / r
  let radial_factor := 0.1 * (1.0 - c.eye_radius / max r c.eye_radius)
  (vx + radial_factor * (-dx / r) * c.max_wind_speed * 0.1,
   vy + radial_factor * (-dy / r) * c.max_wind_speed * 0.1)

/-- The potential-flow branch formula of `velocity_field`: same computation,
but with `omega` fixed to the `r >= eye_radius` branch
(`max_wind_speed * eye_radius / r²`), spiral perturbation included. -/
noncomputable def potential_branch_velocity (c : HurricaneFlowField) (x y : ℝ) : ℝ × ℝ :=
  let dx := x - c.center_x
  let dy := y - c.center_y
  let r := Real.sqrt (dx * dx + dy * dy)
  let omega := (c.max_wind_speed * c.eye_radius) / (r * r)
  let vx := -omega * dy / r
  let vy := omega * dx / r
  let radial_factor := 0.1 * (1.0 - c.eye_radius / max r c.eye_radius)
  (vx + radial_factor * (-dx / r) * c.max_wind_speed * 0.1,
   vy + radial_factor * (-dy / r) * c.max_wind_speed * 0.1)

/-- The centered velocity field: `velocity_field` expressed in terms of the
offset `(a, b)` from the center (definitionally equal to `velocity_field`
at `(center_x + a, center_y + b)`).  Convenient for the rotational-symmetry
proof. -/
noncomputable def vf0 (m e a b : ℝ) : ℝ × ℝ :=
  let r := Real.sqrt (a * a + b * b)
  if r < 0.1 then (0.0, 0.0)
  else
    let omega := if r < e then m / e else (m * e) / (r * r)
    let radial_factor := 0.1 * (1.0 - e / max r e)
    (-omega * b / r + radial_factor * (-a / r) * m * 0.1,
     omega * a / r + radial_factor * (-b / r) * m * 0.1)

/-- Rotation of the point `(x, y)` about the configured center by angle `θ`. -/
noncomputable def rotate_about (c : HurricaneFlowField) (θ x y : ℝ) : ℝ × ℝ :=
  (c.center_x + Real.cos θ * (x - c.center_x) - Real.sin θ * (y - c.center_y),
   c.center_y + Real.sin θ * (x - c.center_x) + Real.cos θ * (y - c.center_y))

/-- Rotation of a velocity vector by angle `θ`. -/
noncomputable def rotate_vec (θ : ℝ) (v : ℝ × ℝ) : ℝ × ℝ :=
  (Real.cos θ * v.1 - Real.sin θ * v.2, Real.sin θ * v.1 + Real.cos θ * v.2)

/-- Python `range(start, stop, step)` for a positive `step`:
`[start, start + step, ...)`, all below `stop`. -/
def pyRange (start stop step : ℕ) : List ℕ :=
  List.range' start ((stop - start + step - 1) / step) step

/-- `HurricaneFlowField.generate_grid`: the nested loops
`for x in range(spacing, width, spacing): for y in range(spacing, height,
spacing): points.append((x, y))`, x outer, y inner. -/
def generate_grid (c : HurricaneFlowField) (spacing : ℕ) : List (ℕ × ℕ) :=
  (pyRange spacing c.width spacing).flatMap
    (fun x => (pyRange spacing c.height spacing).map (fun y => (x, y)))

/-- An arrow glyph, the geometric content of the SVG path string built by
`HurricaneFlowField.arrow_path`: shaft from `origin` to `tip`, plus the
two arrowhead barb points. -/
structure ArrowGlyph where
  origin : ℝ × ℝ
  tip : ℝ × ℝ
  leftBarb : ℝ × ℝ
  rightBarb : ℝ × ℝ

/-- `HurricaneFlowField.arrow_path`: `none` models the empty string returned
when `speed < 0.01`; otherwise the glyph geometry is computed exactly as in
the source. -/
noncomputable def arrow_path (c : HurricaneFlowField) (x y vx vy : ℝ)
    (scale arrow_length : ℝ) : Option ArrowGlyph :=
  let speed := Real.sqrt (vx * vx + vy * vy)
  if speed < 0.01 then none
  else
    let length := arrow_length * scale * min (speed / c.max_wind_speed) 1.0
    let vx_norm := vx / speed
    let vy_norm := vy / speed
    let tip_x := x + vx_norm * length
    let tip_y := y + vy_norm * length
    let head_length := length * 0.3
    let head_width := length * 0.15
    let perp_x := -vy_norm
    let perp_y := vx_norm
    let head_base_x := tip_x - vx_norm * head_length
    let head_base_y := tip_y - vy_norm * head_length
    some { origin := (x, y), tip := (tip_x, tip_y),
           leftBarb := (head_base_x + perp_x * head_width,
                        head_base_y + perp_y * head_width),
           rightBarb := (head_base_x - perp_x * head_width,
                         head_base_y - perp_y * head_width) }

/-- Shaft length of an arrow glyph: Euclidean distance from origin to tip. -/
noncomputable def shaft_length (g : ArrowGlyph) : ℝ :=
  Real.sqrt ((g.tip.1 - g.origin.1) * (g.tip.1 - g.origin.1) +
    (g.tip.2 - g.origin.2) * (g.tip.2 - g.origin.2))

/-- Shaft length of an optional glyph (`0` for an omitted arrow). -/
noncomputable def shaft_length_opt : Option ArrowGlyph → ℝ
  | none => 0
  | some g => shaft_length g

/-- The rendered document built by `HurricaneFlowField.generate_svg`: canvas
size, the eye-circle decoration, and the ordered list of arrow glyphs (one
per grid point whose arrow path is nonempty, in grid order). -/
structure FlowDocument where
  width : ℕ
  height : ℕ
  eye_center : ℝ × ℝ
  eye_radius : ℝ
  arrows : List ArrowGlyph

/-- `HurricaneFlowField.generate_svg`: for each grid point compute the
velocity, compute the arrow path (with the default `arrow_length = 20.0`),
and keep the glyph when it is present. -/
noncomputable def generate_svg (c : HurricaneFlowField) (spacing : ℕ)
    (arrow_scale : ℝ) : FlowDocument :=
  { width := c.width, height := c.height,
    eye_center := (c.center_x, c.center_y), eye_radius := c.eye_radius,
    arrows := (generate_grid c spacing).filterMap (fun p =>
      arrow_path c p.1 p.2 (velocity_field c p.1 p.2).1
        (velocity_field c p.1 p.2).2 arrow_scale 20.0) }

/-- Division with an explicit division-by-zero check: `none` models a Python
`ZeroDivisionError`. -/
noncomputable def divOpt (a b : ℝ) : Option ℝ :=
  if b = 0 then none else some (a / b)

/-- Checked variant of `velocity_field`: every division of the source is
routed through `divOpt`, so a `none` result marks a `ZeroDivisionError`. -/
noncomputable def velocity_fieldChecked (c : HurricaneFlowField) (x y : ℝ) :
    Option (ℝ × ℝ) :=
  let dx := x - c.center_x
  let dy := y - c.center_y
  let r := Real.sqrt (dx * dx + dy * dy)
  if r < 0.1 then some (0.0, 0.0)
  else do
    let omega ← if r < c.eye_radius then divOpt c.max_wind_speed c.eye_radius
      else divOpt (c.max_wind_speed * c.eye_radius) (r * r)
    let vx ← divOpt (-omega * dy) r
    let vy ← divOpt (omega * dx) r
    let q ← divOpt c.eye_radius (max r c.eye_radius)
    let radial_factor := 0.1 * (1.0 - q)
    let rx ← divOpt (-dx) r
    let ry ← divOpt (-dy) r
    some (vx + radial_factor * rx * c.max_wind_speed * 0.1,
          vy + radial_factor * ry * c.max_wind_speed * 0.1)

/-- Checked variant of `arrow_path`: `some none` is the empty-string (skip)
result, `none` marks a `ZeroDivisionError`. -/
noncomputable def arrow_pathChecked (c : HurricaneFlowField) (x y vx vy : ℝ)
    (scale arrow_length : ℝ) : Option (Option ArrowGlyph) :=
  let speed := Real.sqrt (vx * vx + vy * vy)
  if speed < 0.01 then some none
  else do
    let q ← divOpt speed c.max_wind_speed
    let length := arrow_length * scale * min q 1.0
    let vx_norm ← divOpt vx speed
    let vy_norm ← divOpt vy speed
    let tip_x := x + vx_norm * length
    let tip_y := y + vy_norm * length
    let head_length := length * 0.3
    let head_width := length * 0.15
    let perp_x := -vy_norm
    let perp_y := vx_norm
    let head_base_x := tip_x - vx_norm * head_length
    let head_base_y := tip_y - vy_norm * head_length
    some (some { origin := (x, y), tip := (tip_x, tip_y),
                 leftBarb := (head_base_x + perp_x * head_width,
                              head_base_y + perp_y * head_width),
                 rightBarb := (head_base_x - perp_x * head_width,
                               head_base_y - perp_y * head_width) })

/-- Checked arrow loop of `generate_svg`: walks the grid in order, evaluates
the checked field and checked arrow constructor, collecting glyphs; `none`
marks a `ZeroDivisionError` anywhere in the loop. -/
noncomputable def renderArrowsChecked (c : HurricaneFlowField) (sc : ℝ) :
    List (ℕ × ℕ) → Option (List ArrowGlyph)
  | [] => some []
  | p :: ps => do
      let v ← velocity_fieldChecked c p.1 p.2
      let g ← arrow_pathChecked c p.1 p.2 v.1 v.2 sc 20.0
      let rest ← renderArrowsChecked c sc ps
      some (match g with | some a => a :: rest | none => rest)

/-- Checked variant of `generate_svg`: `none` marks a raised error during
document generation. -/
noncomputable def generate_svgChecked (c : HurricaneFlowField) (spacing : ℕ)
    (arrow_scale : ℝ) : Option FlowDocument :=
  (renderArrowsChecked c arrow_scale (generate_grid c spacing)).map (fun gl =>
    { width := c.width, height := c.height,
      eye_center := (c.center_x, c.center_y), eye_radius := c.eye_radius,
      arrows := gl })

/-- The configuration built in `main()`:
`HurricaneFlowField(width=800, height=600, center_x=400, center_y=300,
max_wind_speed=60.0, eye_radius=40.0)`. -/
noncomputable def mainConfig : HurricaneFlowField :=
  { width := 800, height := 600, center_x := 400, center_y := 300,
    max_wind_speed := 60.0, eye_radius := 40.0 }

/-- A degenerate configuration: canvas `10×10` (smaller than the default
spacings), `max_wind_speed = 0`, negative `eye_radius`. -/
noncomputable def degenerateConfig : HurricaneFlowField :=
  { width := 10, height := 10, center_x := 5, center_y := 5,
    max_wind_speed := 0, eye_radius := -5 }

theorem sqrt_eq_of_mul_self (a b : ℝ) (hb : 0 ≤ b) (h : a = b * b) :
    Real.sqrt a = b := by
  rw [h]; exact Real.sqrt_mul_self hb

/-- C5: for every configuration and every point at distance `r < 0.1` from the
center, `velocity_field` returns exactly the zero vector. -/
theorem velocity_field_dead_zone (c : HurricaneFlowField) (x y : ℝ)
    (h : Real.sqrt ((x - c.center_x) * (x - c.center_x) +
          (y - c.center_y) * (y - c.center_y)) < 0.1) :
    velocity_field c x y = (0, 0) := by
  simp only [velocity_field]
  rw [if_pos h]
  norm_num

/-- C5 witness: the exact center of the `main()` configuration is in the dead
zone and gets the zero vector. -/
theorem velocity_field_dead_zone_witness :
    velocity_field mainConfig 400 300 = (0, 0) := by
  refine velocity_field_dead_zone mainConfig 400 300 ?_
  have h0 : ((400 : ℝ) - mainConfig.center_x) * (400 - mainConfig.center_x) +
      ((300 : ℝ) - mainConfig.center_y) * (300 - mainConfig.center_y) = 0 := by
    norm_num [mainConfig]
  rw [h0, Real.sqrt_zero]
  norm_num

theorem mem_pyRange (s w a : ℕ) (hs : 0 < s) :
    a ∈ pyRange s w s ↔ s ≤ a ∧ a < w ∧ a % s = 0 := by
  unfold pyRange
  rw [List.mem_range']
  constructor
  · rintro ⟨i, hi, rfl⟩
    have h1 : (i + 1) * s ≤ w - s + s - 1 :=
      (Nat.le_div_iff_mul_le hs).mp (Nat.succ_le_of_lt hi)
    have h2 : (i + 1) * s = s + s * i := by ring
    rw [h2] at h1
    refine ⟨Nat.le_add_right _ _, ?_, ?_⟩
    · generalize s * i = t at h1 ⊢
      omega
    · simp [Nat.add_mul_mod_self_left, Nat.mod_self]
  · rintro ⟨h1, h2, h3⟩
    obtain ⟨q, hq⟩ := Nat.dvd_of_mod_eq_zero h3
    have hqpos : 0 < q := by
      rcases Nat.eq_zero_or_pos q with h0 | h0
      · subst h0; simp at hq; omega
      · exact h0
    obtain ⟨q', rfl⟩ : ∃ q', q = q' + 1 := ⟨q - 1, by omega⟩
    refine ⟨q', ?_, ?_⟩
    · have ha : (q' + 1) * s ≤ w - s + s - 1 := by
        rw [show (q' + 1) * s = a from by rw [hq]; ring]
        omega
      exact Nat.lt_of_succ_le ((Nat.le_div_iff_mul_le hs).mpr ha)
    · rw [hq]; ring

theorem mem_generate_grid (c : HurricaneFlowField) (s a b : ℕ) :
    (a, b) ∈ generate_grid c s ↔
      a ∈ pyRange s c.width s ∧ b ∈ pyRange s c.height s := by
  simp [generate_grid, List.mem_flatMap, List.mem_map, Prod.ext_iff]

set_option maxRecDepth 4096 in
/-- C7: `generate_grid` enumerates exactly the points `(x, y)` with `x` a
multiple of `spacing` in `[spacing, width)` and `y` a multiple of `spacing`
in `[spacing, height)`, x outer and y inner; for `width = 800`,
`height = 600`, `spacing = 25` the grid has `31 * 23 = 713` points. -/
theorem generate_grid_spec (c : HurricaneFlowField) (s : ℕ) (hs : 0 < s) :
    (∀ a b : ℕ, (a, b) ∈ generate_grid c s ↔
        (s ≤ a ∧ a < c.width ∧ a % s = 0 ∧ s ≤ b ∧ b < c.height ∧ b % s = 0))
    ∧ generate_grid c s
        = (pyRange s c.width s).flatMap
            (fun a => (pyRange s c.height s).map (fun b => (a, b)))
    ∧ (c.width = 800 → c.height = 600 → s = 25 →
        (generate_grid c s).length = 713) := by
  refine ⟨?_, rfl, ?_⟩
  · intro a b
    rw [mem_generate_grid, mem_pyRange _ _ _ hs, mem_pyRange _ _ _ hs]
    tauto
  · intro hw hh hsp
    subst hsp
    simp only [generate_grid, hw, hh]
    decide

/-- C7 witness: the `main()` configuration with spacing 25 yields a
713-point grid. -/
theorem generate_grid_spec_witness :
    (generate_grid mainConfig 25).length = 713 :=
  (generate_grid_spec mainConfig 25 (by norm_num)).2.2 rfl rfl rfl

theorem tangential_speed (m r dx dy : ℝ) (hr : r ≠ 0)
    (hrr : r * r = dx * dx + dy * dy) :
    (-m * dy / r) * (-m * dy / r) + (m * dx / r) * (m * dx / r) = m * m := by
  field_simp
  linear_combination (-(m * m)) * hrr

theorem velocity_field_inside_eye (c : HurricaneFlowField) (x y : ℝ)
    (h1 : 0.1 ≤ Real.sqrt ((x - c.center_x) * (x - c.center_x) +
          (y - c.center_y) * (y - c.center_y)))
    (h2 : Real.sqrt ((x - c.center_x) * (x - c.center_x) +
          (y - c.center_y) * (y - c.center_y)) < c.eye_radius) :
    velocity_field c x y =
      (-(c.max_wind_speed / c.eye_radius) * (y - c.center_y) /
          Real.sqrt ((x - c.center_x) * (x - c.center_x) +
            (y - c.center_y) * (y - c.center_y)),
        c.max_wind_speed / c.eye_radius * (x - c.center_x) /
          Real.sqrt ((x - c.center_x) * (x - c.center_x) +
            (y - c.center_y) * (y - c.center_y))) := by
  have hrpos : (0 : ℝ) < Real.sqrt ((x - c.center_x) * (x - c.center_x) +
      (y - c.center_y) * (y - c.center_y)) := lt_of_lt_of_le (by norm_num) h1
  have hepos : (0 : ℝ) < c.eye_radius := lt_trans hrpos h2
  simp only [velocity_field]
  rw [if_neg (not_lt.mpr h1), if_pos h2, max_eq_right h2.le, div_self hepos.ne']
  norm_num

/-- C10: for every point with `0.1 ≤ r < eye_radius`, the velocity magnitude
is exactly `max_wind_speed / eye_radius`, independent of `r` (the Cartesian
conversion yields speed `omega`, not `omega * r`, and the spiral term
vanishes inside the eye), so the speed does not grow with `r`. -/
theorem speed_constant_inside_eye (c : HurricaneFlowField) (x y : ℝ)
    (hm : 0 ≤ c.max_wind_speed)
    (h1 : 0.1 ≤ Real.sqrt ((x - c.center_x) * (x - c.center_x) +
          (y - c.center_y) * (y - c.center_y)))
    (h2 : Real.sqrt ((x - c.center_x) * (x - c.center_x) +
          (y - c.center_y) * (y - c.center_y)) < c.eye_radius) :
    magnitude (velocity_field c x y) = c.max_wind_speed / c.eye_radius := by
  have hrpos : (0 : ℝ) < Real.sqrt ((x - c.center_x) * (x - c.center_x) +
      (y - c.center_y) * (y - c.center_y)) := lt_of_lt_of_le (by norm_num) h1
  have hepos : (0 : ℝ) < c.eye_radius := lt_trans hrpos h2
  have hrr : Real.sqrt ((x - c.center_x) * (x - c.center_x) +
        (y - c.center_y) * (y - c.center_y)) *
      Real.sqrt ((x - c.center_x) * (x - c.center_x) +
        (y - c.center_y) * (y - c.center_y))
      = (x - c.center_x) * (x - c.center_x) +
        (y - c.center_y) * (y - c.center_y) :=
    Real.mul_self_sqrt (add_nonneg (mul_self_nonneg _) (mul_self_nonneg _))
  rw [velocity_field_inside_eye c x y h1 h2]
  simp only [magnitude]
  apply sqrt_eq_of_mul_self _ _ (div_nonneg hm hepos.le)
  exact tangential_speed (c.max_wind_speed / c.eye_radius) _ _ _ hrpos.ne' hrr

/-- C10 witness: in the `main()` configuration the point `(400, 320)`
(`r = 20`, inside the 40-unit eye) has speed exactly `60 / 40`. -/
theorem speed_constant_inside_eye_witness :
    magnitude (velocity_field mainConfig 400 320)
      = mainConfig.max_wind_speed / mainConfig.eye_radius := by
  have harg : ((400 : ℝ) - mainConfig.center_x) * (400 - mainConfig.center_x) +
      ((320 : ℝ) - mainConfig.center_y) * (320 - mainConfig.center_y) = 400 := by
    norm_num [mainConfig]
  have hsq : Real.sqrt (((400 : ℝ) - mainConfig.center_x) * (400 - mainConfig.center_x) +
      ((320 : ℝ) - mainConfig.center_y) * (320 - mainConfig.center_y)) = 20 := by
    rw [harg]; exact sqrt_eq_of_mul_self 400 20 (by norm_num) (by norm_num)
  exact speed_constant_inside_eye mainConfig 400 320 (by norm_num [mainConfig])
    (by rw [hsq]; norm_num) (by rw [hsq]; norm_num [mainConfig])

/-- C2: at the eye boundary (`r = eye_radius > 0.1`, any direction) the
solid-body and potential-flow branch formulas (spiral term included) give
the same velocity magnitude, and `velocity_field` itself takes the
potential-flow branch there. -/
theorem branch_continuity_at_eye (c : HurricaneFlowField) (x y : ℝ)
    (he : 0.1 < c.eye_radius)
    (hb : Real.sqrt ((x - c.center_x) * (x - c.center_x) +
          (y - c.center_y) * (y - c.center_y)) = c.eye_radius) :
    magnitude (solid_branch_velocity c x y)
        = magnitude (potential_branch_velocity c x y)
    ∧ velocity_field c x y = potential_branch_velocity c x y := by
  have hepos : (0 : ℝ) < c.eye_radius := lt_trans (by norm_num) he
  have homega : c.max_wind_speed * c.eye_radius / (c.eye_radius * c.eye_radius)
      = c.max_wind_speed / c.eye_radius := by
    field_simp
    ring
  have hvec : solid_branch_velocity c x y = potential_branch_velocity c x y := by
    simp only [solid_branch_velocity, potential_branch_velocity, hb, homega]
  refine ⟨by rw [hvec], ?_⟩
  simp only [velocity_field, potential_branch_velocity, hb]
  rw [if_neg (not_lt.mpr he.le), if_neg (lt_irrefl _)]

/-- C2 witness: in the `main()` configuration the boundary point `(400, 340)`
(`r = 40 = eye_radius`) has equal branch magnitudes. -/
theorem branch_continuity_at_eye_witness :
    magnitude (solid_branch_velocity mainConfig 400 340)
        = magnitude (potential_branch_velocity mainConfig 400 340)
    ∧ velocity_field mainConfig 400 340
        = potential_branch_velocity mainConfig 400 340 := by
  have harg : ((400 : ℝ) - mainConfig.center_x) * (400 - mainConfig.center_x) +
      ((340 : ℝ) - mainConfig.center_y) * (340 - mainConfig.center_y) = 1600 := by
    norm_num [mainConfig]
  have hsq : Real.sqrt (((400 : ℝ) - mainConfig.center_x) * (400 - mainConfig.center_x) +
      ((340 : ℝ) - mainConfig.center_y) * (340 - mainConfig.center_y))
      = mainConfig.eye_radius := by
    rw [harg, show mainConfig.eye_radius = (40 : ℝ) from by norm_num [mainConfig]]
    exact sqrt_eq_of_mul_self 1600 40 (by norm_num) (by norm_num)
  exact branch_continuity_at_eye mainConfig 400 340 (by norm_num [mainConfig]) hsq

/-- C4: the arrow shaft length is
`arrow_length * scale * min(speed / max_wind_speed, 1.0)`, hence never
exceeds `arrow_length * scale` (an omitted arrow counts as length 0). -/
theorem arrow_shaft_length_clipped (c : HurricaneFlowField)
    (x y vx vy scale alen : ℝ)
    (hm : 0 < c.max_wind_speed) (hsc : 0 ≤ scale) (hal : 0 ≤ alen) :
    shaft_length_opt (arrow_path c x y vx vy scale alen) ≤ alen * scale
    ∧ (¬ magnitude (vx, vy) < 0.01 →
        shaft_length_opt (arrow_path c x y vx vy scale alen)
          = alen * scale * min (magnitude (vx, vy) / c.max_wind_speed) 1.0) := by
  by_cases h : Real.sqrt (vx * vx + vy * vy) < 0.01
  · have hnone : arrow_path c x y vx vy scale alen = none := by
      simp only [arrow_path]
      rw [if_pos h]
    constructor
    · rw [hnone]
      simp only [shaft_length_opt]
      exact mul_nonneg hal hsc
    · intro hcon
      exact absurd h hcon
  · have key : shaft_length_opt (arrow_path c x y vx vy scale alen)
        = alen * scale * min (Real.sqrt (vx * vx + vy * vy) / c.max_wind_speed) 1.0 := by
      simp only [arrow_path]
      rw [if_neg h]
      simp only [shaft_length_opt, shaft_length]
      set sp := Real.sqrt (vx * vx + vy * vy) with hspdef
      have hsppos : (0 : ℝ) < sp :=
        lt_of_lt_of_le (by norm_num) (not_lt.mp h)
      have hrr : sp * sp = vx * vx + vy * vy :=
        Real.mul_self_sqrt (add_nonneg (mul_self_nonneg _) (mul_self_nonneg _))
      have hL0 : 0 ≤ alen * scale * min (sp / c.max_wind_speed) 1.0 := by
        apply mul_nonneg (mul_nonneg hal hsc)
        exact le_min (div_nonneg (Real.sqrt_nonneg _) hm.le) (by norm_num)
      apply sqrt_eq_of_mul_self _ _ hL0
      have hexp : ∀ L : ℝ,
          (x + vx / sp * L - x) * (x + vx / sp * L - x) +
            (y + vy / sp * L - y) * (y + vy / sp * L - y)
          = L * L * ((vx * vx + vy * vy) / (sp * sp)) := by
        intro L; ring
      rw [hexp, ← hrr, div_self (mul_ne_zero hsppos.ne' hsppos.ne'), mul_one]
    constructor
    · rw [key]
      calc alen * scale * min (Real.sqrt (vx * vx + vy * vy) / c.max_wind_speed) 1.0
          ≤ alen * scale * 1.0 :=
            mul_le_mul_of_nonneg_left (min_le_right _ _) (mul_nonneg hal hsc)
        _ = alen * scale := by norm_num
    · intro _
      rw [key]
      rfl

/-- C4 witness: in the `main()` configuration, the sample `(3, 4)` at the
origin with `scale = 1`, `arrow_length = 20` gives a shaft of length at most
`20 * 1`. -/
theorem arrow_shaft_length_clipped_witness :
    shaft_length_opt (arrow_path mainConfig 0 0 3 4 1 20) ≤ 20 * 1
    ∧ (¬ magnitude (3, 4) < 0.01 →
        shaft_length_opt (arrow_path mainConfig 0 0 3 4 1 20)
          = 20 * 1 * min (magnitude (3, 4) / mainConfig.max_wind_speed) 1.0) :=
  arrow_shaft_length_clipped mainConfig 0 0 3 4 1 20
    (by norm_num [mainConfig]) (by norm_num) (by norm_num)

/-- C6: an arrow glyph is produced iff the sample's speed is not below
`0.01`, and the arrow list of the document never has more entries than the
grid has points. -/
theorem arrow_omission (c : HurricaneFlowField) :
    (∀ x y vx vy scale alen : ℝ,
        (arrow_path c x y vx vy scale alen).isSome ↔ ¬ magnitude (vx, vy) < 0.01)
    ∧ ∀ (s : ℕ) (sc : ℝ),
        (generate_svg c s sc).arrows.length ≤ (generate_grid c s).length := by
  constructor
  · intro x y vx vy scale alen
    simp only [arrow_path, magnitude]
    by_cases h : Real.sqrt (vx * vx + vy * vy) < 0.01
    · rw [if_pos h]
      simp [h]
    · rw [if_neg h]
      simp [h]
  · intro s sc
    simp only [generate_svg]
    exact List.length_filterMap_le _ _

/-- C8: document generation is deterministic — equal field configurations and
equal sampling parameters give equal documents, in particular the same arrow
list (same count, same coordinates, same order). -/
theorem generate_svg_deterministic (c₁ c₂ : HurricaneFlowField) (s₁ s₂ : ℕ)
    (a₁ a₂ : ℝ) (hc : c₁ = c₂) (hs : s₁ = s₂) (ha : a₁ = a₂) :
    generate_svg c₁ s₁ a₁ = generate_svg c₂ s₂ a₂
    ∧ (generate_svg c₁ s₁ a₁).arrows = (generate_svg c₂ s₂ a₂).arrows
    ∧ (generate_svg c₁ s₁ a₁).arrows.length
        = (generate_svg c₂ s₂ a₂).arrows.length := by
  subst hc; subst hs; subst ha
  exact ⟨rfl, rfl, rfl⟩

/-- C8 witness: two renders of the `main()` configuration with spacing 25 and
arrow scale 1.2 agree. -/
theorem generate_svg_deterministic_witness :
    generate_svg mainConfig 25 1.2 = generate_svg mainConfig 25 1.2
    ∧ (generate_svg mainConfig 25 1.2).arrows
        = (generate_svg mainConfig 25 1.2).arrows
    ∧ (generate_svg mainConfig 25 1.2).arrows.length
        = (generate_svg mainConfig 25 1.2).arrows.length :=
  generate_svg_deterministic mainConfig mainConfig 25 25 1.2 1.2 rfl rfl rfl

theorem velocity_field_eq_vf0 (c : HurricaneFlowField) (x y : ℝ) :
    velocity_field c x y
      = vf0 c.max_wind_speed c.eye_radius (x - c.center_x) (y - c.center_y) := rfl

theorem vf0_rot (m e a b si co : ℝ) (h : si * si + co * co = 1) :
    vf0 m e (co * a - si * b) (si * a + co * b)
      = (co * (vf0 m e a b).1 - si * (vf0 m e a b).2,
         si * (vf0 m e a b).1 + co * (vf0 m e a b).2) := by
  have hab : (co * a - si * b) * (co * a - si * b) +
      (si * a + co * b) * (si * a + co * b) = a * a + b * b := by
    linear_combination (a * a + b * b) * h
  simp only [vf0, hab]
  split_ifs with h1 h2
  · norm_num
  · simp only [Prod.mk.injEq]
    exact ⟨by ring, by ring⟩
  · simp only [Prod.mk.injEq]
    exact ⟨by ring, by ring⟩

/-- C9: rotating a sample point about the configured center by angle `θ` and
evaluating `velocity_field` gives the same result as evaluating
`velocity_field` at the original point and rotating the velocity vector by
`θ` (exactly, in the real-number model). -/
theorem velocity_field_rotational_symmetry (c : HurricaneFlowField) (θ x y : ℝ) :
    velocity_field c (rotate_about c θ x y).1 (rotate_about c θ x y).2
      = rotate_vec θ (velocity_field c x y) := by
  have h1 : (rotate_about c θ x y).1 - c.center_x
      = Real.cos θ * (x - c.center_x) - Real.sin θ * (y - c.center_y) := by
    simp only [rotate_about]
    ring
  have h2 : (rotate_about c θ x y).2 - c.center_y
      = Real.sin θ * (x - c.center_x) + Real.cos θ * (y - c.center_y) := by
    simp only [rotate_about]
    ring
  have hs : Real.sin θ * Real.sin θ + Real.cos θ * Real.cos θ = 1 := by
    linear_combination Real.sin_sq_add_cos_sq θ
  calc velocity_field c (rotate_about c θ x y).1 (rotate_about c θ x y).2
      = vf0 c.max_wind_speed c.eye_radius
          ((rotate_about c θ x y).1 - c.center_x)
          ((rotate_about c θ x y).2 - c.center_y) :=
        velocity_field_eq_vf0 c _ _
    _ = vf0 c.max_wind_speed c.eye_radius
          (Real.cos θ * (x - c.center_x) - Real.sin θ * (y - c.center_y))
          (Real.sin θ * (x - c.center_x) + Real.cos θ * (y - c.center_y)) := by
        rw [h1, h2]
    _ = (Real.cos θ *
            (vf0 c.max_wind_speed c.eye_radius (x - c.center_x) (y - c.center_y)).1 -
          Real.sin θ *
            (vf0 c.max_wind_speed c.eye_radius (x - c.center_x) (y - c.center_y)).2,
         Real.sin θ *
            (vf0 c.max_wind_speed c.eye_radius (x - c.center_x) (y - c.center_y)).1 +
          Real.cos θ *
            (vf0 c.max_wind_speed c.eye_radius (x - c.center_x) (y - c.center_y)).2) :=
        vf0_rot _ _ _ _ _ _ hs
    _ = rotate_vec θ (velocity_field c x y) := by
        rw [velocity_field_eq_vf0 c x y]
        rfl

/-- C1 (code evaluation at the claimed scenario): with the `main()`
configuration (`maxWindSpeed = 60`, `eyeRadius = 40`), the boundary point
`(400, 340)` (`r = 40`) gets velocity `(-3/2, 0)` of magnitude `3/2` — not
the claimed `≈ 60`.  The Cartesian conversion `vx = -omega*dy/r`,
`vy = omega*dx/r` produces speed `omega` instead of `omega*r`, contradicting
the source's own Rankine-vortex/`max_wind_speed` documentation. -/
theorem velocity_field_main_boundary_eval :
    velocity_field mainConfig 400 340 = (-(3 / 2), 0)
    ∧ magnitude (velocity_field mainConfig 400 340) = 3 / 2
    ∧ magnitude (velocity_field mainConfig 400 340) ≠ 60 := by
  have hsq : Real.sqrt (((400 : ℝ) - 400) * (400 - 400) +
      ((340 : ℝ) - 300) * (340 - 300)) = 40 := by
    rw [show ((400 : ℝ) - 400) * (400 - 400) + ((340 : ℝ) - 300) * (340 - 300)
      = 1600 from by norm_num]
    exact sqrt_eq_of_mul_self 1600 40 (by norm_num) (by norm_num)
  have hval : velocity_field mainConfig 400 340 = (-(3 / 2), 0) := by
    simp only [velocity_field, mainConfig]
    rw [hsq]
    rw [if_neg (by norm_num : ¬ (40 : ℝ) < 0.1),
      if_neg (by norm_num : ¬ (40 : ℝ) < 40.0)]
    norm_num [Prod.ext_iff, max_def]
  have hmag : magnitude (-(3 / 2 : ℝ), (0 : ℝ)) = 3 / 2 := by
    simp only [magnitude]
    rw [show (-(3 / 2 : ℝ)) * (-(3 / 2 : ℝ)) + (0 : ℝ) * 0
      = (3 / 2) * (3 / 2) from by norm_num]
    exact Real.sqrt_mul_self (by norm_num)
  refine ⟨hval, ?_, ?_⟩
  · rw [hval]; exact hmag
  · rw [hval, hmag]; norm_num

theorem divOpt_ne (a b : ℝ) (hb : b ≠ 0) : divOpt a b = some (a / b) := by
  simp [divOpt, hb]

theorem velocity_fieldChecked_eq (c : HurricaneFlowField) (x y : ℝ) :
    velocity_fieldChecked c x y = some (velocity_field c x y) := by
  by_cases h : Real.sqrt ((x - c.center_x) * (x - c.center_x) +
      (y - c.center_y) * (y - c.center_y)) < 0.1
  · simp [velocity_fieldChecked, velocity_field, h]
  · have hr : (0 : ℝ) < Real.sqrt ((x - c.center_x) * (x - c.center_x) +
        (y - c.center_y) * (y - c.center_y)) :=
      lt_of_lt_of_le (by norm_num) (not_lt.mp h)
    have hmax : (0 : ℝ) < max (Real.sqrt ((x - c.center_x) * (x - c.center_x) +
        (y - c.center_y) * (y - c.center_y))) c.eye_radius :=
      lt_of_lt_of_le hr (le_max_left _ _)
    by_cases h2 : Real.sqrt ((x - c.center_x) * (x - c.center_x) +
        (y - c.center_y) * (y - c.center_y)) < c.eye_radius
    · have he : (0 : ℝ) < c.eye_radius := lt_trans hr h2
      simp [velocity_fieldChecked, velocity_field, h, h2, divOpt,
        hr.ne', he.ne', hmax.ne']
    · simp [velocity_fieldChecked, velocity_field, h, h2, divOpt,
        hr.ne', mul_ne_zero hr.ne' hr.ne', hmax.ne']

theorem velocity_field_mws_zero (c : HurricaneFlowField) (x y : ℝ)
    (hm : c.max_wind_speed = 0) : velocity_field c x y = (0, 0) := by
  simp only [velocity_field]
  split_ifs with h1 h2 <;> norm_num [hm, Prod.ext_iff]

theorem arrow_pathChecked_eq (c : HurricaneFlowField) (x y vx vy sc al : ℝ)
    (hm : c.max_wind_speed ≠ 0) :
    arrow_pathChecked c x y vx vy sc al = some (arrow_path c x y vx vy sc al) := by
  by_cases h : Real.sqrt (vx * vx + vy * vy) < 0.01
  · simp [arrow_pathChecked, arrow_path, h]
  · have hsp : Real.sqrt (vx * vx + vy * vy) ≠ 0 :=
      (lt_of_lt_of_le (by norm_num) (not_lt.mp h)).ne'
    simp [arrow_pathChecked, arrow_path, h, divOpt, hm, hsp]

theorem arrow_pathChecked_velocity (c : HurricaneFlowField) (px py sc : ℝ) :
    arrow_pathChecked c px py (velocity_field c px py).1
        (velocity_field c px py).2 sc 20.0
      = some (arrow_path c px py (velocity_field c px py).1
          (velocity_field c px py).2 sc 20.0) := by
  rcases eq_or_ne c.max_wind_speed 0 with hm | hm
  · have hv1 : (velocity_field c px py).1 = 0 := by
      rw [velocity_field_mws_zero c px py hm]
    have hv2 : (velocity_field c px py).2 = 0 := by
      rw [velocity_field_mws_zero c px py hm]
    rw [hv1, hv2]
    norm_num [arrow_pathChecked, arrow_path, Real.sqrt_zero]
  · exact arrow_pathChecked_eq c px py _ _ sc 20.0 hm

theorem renderArrowsChecked_eq (c : HurricaneFlowField) (sc : ℝ)
    (l : List (ℕ × ℕ)) :
    renderArrowsChecked c sc l
      = some (l.filterMap (fun p =>
          arrow_path c p.1 p.2 (velocity_field c p.1 p.2).1
            (velocity_field c p.1 p.2).2 sc 20.0)) := by
  induction l with
  | nil => rfl
  | cons p ps ih =>
      simp only [renderArrowsChecked]
      rw [velocity_fieldChecked_eq]
      simp only [Option.bind_eq_bind, Option.some_bind]
      rw [arrow_pathChecked_velocity]
      simp only [Option.some_bind]
      rw [ih]
      simp only [Option.some_bind]
      rcases harrow : arrow_path c p.1 p.2 (velocity_field c p.1 p.2).1
          (velocity_field c p.1 p.2).2 sc 20.0 with _ | g <;>
        simp [harrow, List.filterMap_cons]

/-- C3: document generation never fails.  For every configuration (including
zero or negative `eye_radius`, a canvas smaller than the spacing, and
`max_wind_speed = 0`) and every positive spacing, the checked pipeline — in
which every division of the source is guarded against a zero divisor —
completes and returns the document (possibly with an empty arrow list). -/
theorem generate_svg_total (c : HurricaneFlowField) (spacing : ℕ) (sc : ℝ)
    (_hs : 0 < spacing) :
    generate_svgChecked c spacing sc = some (generate_svg c spacing sc) := by
  simp only [generate_svgChecked]
  rw [renderArrowsChecked_eq]
  rfl

/-- C3 witness: the degenerate configuration (10×10 canvas smaller than the
spacing 25, `max_wind_speed = 0`, `eye_radius = -5`) still yields a document,
and its arrow list is empty. -/
theorem generate_svg_total_witness :
    generate_svgChecked degenerateConfig 25 1.0
        = some (generate_svg degenerateConfig 25 1.0)
    ∧ (generate_svg degenerateConfig 25 1.0).arrows = [] :=
  ⟨generate_svg_total degenerateConfig 25 1.0 (by norm_num), rfl⟩

end HurricaneFlow
